import Mathlib

/-!
Shallow embedding of the pagination / rate-limiting / normalization core of
`weibo.py` (a single-file Weibo crawler).  Python strings are modelled as
`List Char` (a Python `str` is a sequence of code points); Python `int` is
`Int`; fallible Python code (code that can raise) returns `Option` or
`Except`.  External collaborators (the HTTP layer, `json`, `lxml`,
`datetime`) are modelled by explicit response values passed as inputs and by
executable models of the library operations actually used, on the subset of
behaviour the crawler exercises.
-/

set_option maxRecDepth 10000

/-! ## Python string primitives used by the source -/

/-- Model of Python `str.find(sub)`: index of the first occurrence of `sub`
in `hay` starting at position `i`, or `-1`. -/
def subFindAux (sub : List Char) : List Char → Nat → Int
  | [], i => if sub.isPrefixOf [] then (i : Int) else -1
  | hay@(_ :: t), i => if sub.isPrefixOf hay then (i : Int) else subFindAux sub t (i + 1)

/-- Model of Python `str.find(sub)` (first index or `-1`). -/
def subFind (hay sub : List Char) : Int := subFindAux sub hay 0

/-- Model of Python `sub in hay` (substring membership). -/
def listContainsSub (hay sub : List Char) : Bool := decide (0 ≤ subFind hay sub)

/-- Model of Python `str.rfind(sub)`: index of the last occurrence of `sub`,
or `-1`. -/
def subRFind (hay sub : List Char) : Int :=
  match (((List.range (hay.length + 1)).filter (fun i => sub.isPrefixOf (hay.drop i)))).getLast? with
  | none => -1
  | some i => (i : Int)

/-- Model of the Python slice `s[i:]` for a possibly negative `i`
(a negative index counts from the end, clamped at 0). -/
def sliceFrom (s : List Char) (i : Int) : List Char :=
  if 0 ≤ i then s.drop i.toNat else s.drop (s.length - (-i).toNat)

/-- Model of the Python slice `s[:i]` for a possibly negative `i`. -/
def sliceTo (s : List Char) (i : Int) : List Char :=
  if 0 ≤ i then s.take i.toNat else s.take (s.length - (-i).toNat)

/-- Model of Python `str.endswith(sfx)`. -/
def pyEndsWith (s sfx : List Char) : Bool := decide (s.drop (s.length - sfx.length) = sfx)

/-- Model of Python `str.count(c)` for the single-character pattern the
source uses (`created_at.count('-')`): number of occurrences of the char. -/
def countChar (s : List Char) (c : Char) : Nat := s.count c

/-- The whitespace characters stripped by Python `int(str)`. -/
def pySpace (c : Char) : Bool :=
  c = ' ' || c = '\t' || c = '\n' || c = '\r' || c = '\x0b' || c = '\x0c'

/-- Strip `pySpace` characters from both ends of a string. -/
def pyTrim (s : List Char) : List Char :=
  ((s.dropWhile pySpace).reverse.dropWhile pySpace).reverse

/-- Numeric value of a list of decimal digit characters, most significant
first (the accumulating fold a decimal parser performs). -/
def parseDigitChars (cs : List Char) : Nat :=
  cs.foldl (fun a c => 10 * a + (c.toNat - 48)) 0

/-- Model of Python `int(s)` on a string: strip surrounding whitespace,
allow one optional sign, then require a nonempty run of decimal digits
(underscore separators, which never occur in the crawler's inputs, are not
modelled). Returns `none` where Python raises `ValueError`. -/
def pyInt (s : List Char) : Option Int :=
  let t := pyTrim s
  let sgn : Int := if t.head? = some '-' then -1 else 1
  let ds := if t.head? = some '+' || t.head? = some '-' then t.tail else t
  if ds ≠ [] ∧ ds.all Char.isDigit then some (sgn * (parseDigitChars ds : Int)) else none

/-- Decimal rendering of a natural number (the digit sequence produced when
Python formats an `int`). -/
def natChars (n : Nat) : List Char :=
  if n = 0 then ['0'] else (Nat.digits 10 n).reverse.map Nat.digitChar

/-- Decimal rendering of a Python `int` (possibly negative). -/
def intChars (n : Int) : List Char :=
  if n < 0 then '-' :: natChars n.natAbs else natChars n.toNat

/-! ## `UserWeibo._string_to_int` (count normalization) -/

/-- A Python value that is either an `int` or a `str` — the argument type
`_string_to_int` actually receives. -/
inductive PyVal where
  | int (n : Int)
  | str (s : List Char)
deriving DecidableEq, Repr

def sWan : List Char := "万".data

def sWanPlus : List Char := "万+".data

def sZeros : List Char := "0000".data

/-- Embedding of `UserWeibo._string_to_int`: integers pass through; a string
ending in `万+` (resp. `万`) has the marker dropped (Python `[:-2]` / `[:-1]`)
and `"0000"` appended before `int()`; otherwise plain `int()`.  `none` models
the `ValueError` that `int()` raises on a non-numeral. -/
def string_to_int : PyVal → Option Int
  | .int n => some n
  | .str s =>
    if pyEndsWith s sWanPlus then pyInt (s.take (s.length - 2) ++ sZeros)
    else if pyEndsWith s sWan then pyInt (s.take (s.length - 1) ++ sZeros)
    else pyInt s

/-! ## Model of `datetime` (the subset the crawler uses)

`datetime.now()` is an ambient-clock read; the embedding threads the
current instant in as an explicit `now` parameter.  Microseconds, never
observable through the crawler's formats, are not modelled. -/

/-- A `datetime.datetime` value (timezone-naive). -/
structure PyDateTime where
  year : Int
  month : Int
  day : Int
  hour : Int
  minute : Int
  second : Int
deriving DecidableEq, Repr

/-- Days from civil date (proleptic Gregorian), the standard conversion
underlying `datetime` arithmetic. -/
def daysFromCivil (y m d : Int) : Int :=
  let y' := if m ≤ 2 then y - 1 else y
  let era := y'.ediv 400
  let yoe := y' - era * 400
  let mp := if 2 < m then m - 3 else m + 9
  let doy := (153 * mp + 2).ediv 5 + d - 1
  let doe := yoe * 365 + yoe.ediv 4 - yoe.ediv 100 + doy
  era * 146097 + doe - 719468

/-- Civil date from a day count (inverse of `daysFromCivil`). -/
def civilFromDays (z0 : Int) : Int × Int × Int :=
  let z := z0 + 719468
  let era := z.ediv 146097
  let doe := z - era * 146097
  let yoe := (doe - doe.ediv 1460 + doe.ediv 36524 - doe.ediv 146096).ediv 365
  let y := yoe + era * 400
  let doy := doe - (365 * yoe + yoe.ediv 4 - yoe.ediv 100)
  let mp := (5 * doy + 2).ediv 153
  let d := doy - (153 * mp + 2).ediv 5 + 1
  let m := if mp < 10 then mp + 3 else mp - 9
  (if m ≤ 2 then y + 1 else y, m, d)

/-- Seconds since the civil epoch of a `PyDateTime`. -/
def toAbsSecs (d : PyDateTime) : Int :=
  daysFromCivil d.year d.month d.day * 86400 + d.hour * 3600 + d.minute * 60 + d.second

/-- The `PyDateTime` at a given number of seconds since the civil epoch. -/
def fromAbsSecs (t : Int) : PyDateTime :=
  let days := t.ediv 86400
  let s := t - days * 86400
  match civilFromDays days with
  | (y, m, d) => ⟨y, m, d, s.ediv 3600, (s.emod 3600).ediv 60, s.emod 60⟩

/-- Model of `datetime - timedelta(seconds=secs)` (the source only ever
subtracts timedeltas built from whole minutes, hours or days). -/
def pySubSecs (d : PyDateTime) (secs : Int) : PyDateTime :=
  fromAbsSecs (toAbsSecs d - secs)

/-- Length of a month in the proleptic Gregorian calendar, as validated by
the `datetime` constructor. -/
def daysInMonth (y m : Int) : Int :=
  if m = 2 then (if (y.emod 4 = 0 ∧ y.emod 100 ≠ 0) ∨ y.emod 400 = 0 then 29 else 28)
  else if m = 4 ∨ m = 6 ∨ m = 9 ∨ m = 11 then 30 else 31

/-- The `datetime(year, month, day)` constructor with its range validation
(`none` models the `ValueError` it raises out of range). -/
def mkValidDate (y m d : Int) : Option PyDateTime :=
  if 1 ≤ y ∧ y ≤ 9999 ∧ 1 ≤ m ∧ m ≤ 12 ∧ 1 ≤ d ∧ d ≤ daysInMonth y m
  then some ⟨y, m, d, 0, 0, 0⟩ else none

/-- Model of `datetime.now().strftime("%Y")`: the year rendered in decimal. -/
def strftimeY (d : PyDateTime) : List Char := intChars d.year

/-- Model of `datetime.strptime(s, "%Y-%m-%d")`: exactly four year digits,
a literal dash, one or two month digits (greedy), a dash, one or two day
digits, end of string; then the `datetime` constructor's validation. -/
def strptimeYMD (cs : List Char) : Option PyDateTime :=
  let ycs := cs.take 4
  let r1 := cs.drop 4
  if ycs.length = 4 ∧ ycs.all Char.isDigit then
    match r1 with
    | '-' :: r2 =>
      let mcs := (r2.takeWhile Char.isDigit).take 2
      let r3 := r2.drop mcs.length
      if mcs.length = 0 then none else
      match r3 with
      | '-' :: r4 =>
        let dcs := (r4.takeWhile Char.isDigit).take 2
        let r5 := r4.drop dcs.length
        if dcs.length = 0 ∨ r5 ≠ [] then none
        else mkValidDate (parseDigitChars ycs : Int) (parseDigitChars mcs : Int) (parseDigitChars dcs : Int)
      | _ => none
    | _ => none
  else none

/-! ## `UserWeibo._standardize_date` -/

/-- Python exceptions the embedded code can raise. -/
inductive PyErr where
  | valueError (msg : List Char)
deriving DecidableEq, Repr

def sJustNow : List Char := "刚刚".data

def sMinuteMark : List Char := "分钟".data

def sHourMark : List Char := "小时".data

def sYesterdayMark : List Char := "昨天".data

def sBadInt : List Char := "invalid literal for int()".data

def sBadDate : List Char := "time data does not match format".data

/-- Embedding of `UserWeibo._standardize_date`, with `datetime.now()`
passed in as `now`.  Branches in source order: "刚刚" → now; "N分钟" → now −
N minutes; "N小时" → now − N hours; "昨天" → now − 1 day; otherwise a date
literal, prefixed with the current year when it contains a single dash,
parsed as `%Y-%m-%d`. -/
def standardize_date (now : PyDateTime) (created_at : List Char) : Except PyErr PyDateTime :=
  if listContainsSub created_at sJustNow then .ok now
  else if listContainsSub created_at sMinuteMark then
    match pyInt (created_at.take (subFind created_at sMinuteMark).toNat) with
    | none => .error (.valueError sBadInt)
    | some m => .ok (pySubSecs now (m * 60))
  else if listContainsSub created_at sHourMark then
    match pyInt (created_at.take (subFind created_at sHourMark).toNat) with
    | none => .error (.valueError sBadInt)
    | some h => .ok (pySubSecs now (h * 3600))
  else if listContainsSub created_at sYesterdayMark then .ok (pySubSecs now 86400)
  else
    let s := if countChar created_at '-' = 1 then strftimeY now ++ [ '-' ] ++ created_at
             else created_at
    match strptimeYMD s with
    | none => .error (.valueError sBadDate)
    | some d => .ok d

/-! ## Post records and `UserWeibo._parse_weibo`

The `lxml` HTML parse of a post body is an external collaborator: the node
sets the source's xpath queries select (the flattened string value of the
body, the `surl-text` span texts, and the anchor elements) are carried in
the card alongside the raw body, and the source's own filtering over those
node sets is embedded. -/

/-- The zero-width mark stripped by `_standardize_info`. -/
def zwChar : Char := '​'

/-- Model of `_standardize_info`'s per-string sanitation: strip the
zero-width mark.  The `encode(sys.stdout.encoding, "ignore").decode` round
trip is modelled as the identity (a lossless output encoding). -/
def standardize_str (s : List Char) : List Char := s.filter (fun c => c ≠ zwChar)

/-- `weibo_info['user']` (the fields read by `_parse_weibo`). -/
structure MUser where
  id : Int
  screen_name : List Char
deriving DecidableEq, Repr

/-- One entry of `weibo_info['pics']`: the source reads `pic['large']['url']`. -/
structure PicInfo where
  large_url : List Char
deriving DecidableEq, Repr

/-- An anchor element of the body, as selected by `xpath('//a')`: its
`@href` attribute and its flattened string value. -/
structure Anchor where
  href : List Char
  text : List Char
deriving DecidableEq, Repr

/-- `wb['mblog']` — the fields `_is_weibo` and `_parse_weibo` read.  The
`text_value`, `span_texts` and `anchors` fields carry the `lxml` parse
results of the raw `text` body (external library output);
`has_retweeted_status` models the `'retweeted_status' in wb['mblog']` key
test. -/
structure Mblog where
  user : MUser
  id : PyVal
  text : List Char
  text_value : List Char
  span_texts : List (List Char)
  anchors : List Anchor
  pics : List PicInfo
  created_at : List Char
  attitudes_count : PyVal
  comments_count : PyVal
  reposts_count : PyVal
  isLongText : Bool
  has_retweeted_status : Bool
deriving DecidableEq, Repr

/-- One card of a page-listing response. -/
structure Card where
  card_type : Int
  mblog : Mblog
deriving DecidableEq, Repr

/-- A page-listing response: the `ok` flag and `data.cards`. -/
structure PageResponse where
  ok : Bool
  cards : List Card
deriving DecidableEq, Repr

/-- The `OrderedDict` built by `_parse_weibo`, with its fixed key set. -/
structure WeiboRecord where
  user_id : Int
  user_name : List Char
  id : Int
  text : List Char
  images : List (List Char)
  created : PyDateTime
  attitudes_count : Int
  comments_count : Int
  reposts_count : Int
  topics : List (List Char)
  at_users : List (List Char)
  is_long_text : Bool
deriving DecidableEq, Repr

/-- Embedding of `UserWeibo._is_weibo`. -/
def is_weibo (c : Card) : Bool :=
  decide (c.card_type = 9) && !c.mblog.has_retweeted_status

/-- Embedding of `UserWeibo._get_pics`. -/
def get_pics (m : Mblog) : List (List Char) := m.pics.map (fun p => p.large_url)

/-- Embedding of `UserWeibo._get_topics` over the selected span texts:
keep texts of length > 2 delimited by `#`, stripping the delimiters. -/
def get_topics (spans : List (List Char)) : List (List Char) :=
  (spans.filter (fun t =>
      decide (2 < t.length) && (t.head? == some '#') && (t.getLast? == some '#'))).map
    (fun t => (t.drop 1).dropLast)

/-- Embedding of `UserWeibo._get_at_users` over the selected anchors: keep
anchors whose `'@' + href[3:]` equals their text, stripping the leading
`@` from the text. -/
def get_at_users (anchors : List Anchor) : List (List Char) :=
  (anchors.filter (fun a => decide ('@' :: a.href.drop 3 = a.text))).map
    (fun a => a.text.drop 1)

/-- Lift an `Option` to `Except` with the `ValueError` the Python call
would raise. -/
def orValueError (msg : List Char) : Option α → Except PyErr α
  | none => .error (.valueError msg)
  | some a => .ok a

/-- Model of Python `int(v)` on an int-or-str value. -/
def pyIntVal : PyVal → Option Int
  | .int n => some n
  | .str s => pyInt s

/-- Apply `_standardize_info` to a record: of its values only `user_name`
and `text` are `str` instances, so only those are sanitized. -/
def standardize_record (w : WeiboRecord) : WeiboRecord :=
  { w with user_name := standardize_str w.user_name, text := standardize_str w.text }

/-- Embedding of `UserWeibo._parse_weibo` (with `datetime.now()` threaded
in as `now`).  An `error` models an exception escaping the parse. -/
def parse_weibo (now : PyDateTime) (m : Mblog) : Except PyErr WeiboRecord := do
  let idn ← orValueError sBadInt (pyIntVal m.id)
  let created ← standardize_date now m.created_at
  let att ← orValueError sBadInt (string_to_int m.attitudes_count)
  let com ← orValueError sBadInt (string_to_int m.comments_count)
  let rep ← orValueError sBadInt (string_to_int m.reposts_count)
  .ok (standardize_record
    { user_id := m.user.id
      user_name := m.user.screen_name
      id := idn
      text := m.text_value
      images := get_pics m
      created := created
      attitudes_count := att
      comments_count := com
      reposts_count := rep
      topics := get_topics m.span_texts
      at_users := get_at_users m.anchors
      is_long_text := m.isLongText })

/-! ## `UserWeibo` and its pagination state machine -/

/-- The `UserWeibo` dataclass. -/
structure UserWeibo where
  name : List Char
  id : Int
  followers_count : Int
  statuses_count : Int
  description : List Char
  avatar : List Char
  page : Int := 1
  _iter : Bool := false
deriving DecidableEq, Repr

/-- Embedding of `UserWeibo.__len__`: `math.ceil(statuses_count / 10)`
(as an integer ceiling). -/
def feedLen (statuses_count : Int) : Int := (statuses_count + 9).ediv 10

/-- Embedding of `UserWeibo.__iter__`: `dataclasses.replace(self, _iter=True)`
— a fresh copy with the iterating flag set. -/
def iterCopy (f : UserWeibo) : UserWeibo := { f with _iter := true }

/-- The card list of one successful page, filtered by `_is_weibo` and
parsed — the list comprehension in `__next__`. -/
def parsePage (now : PyDateTime) (resp : PageResponse) : Except PyErr (List WeiboRecord) :=
  (resp.cards.filter is_weibo).mapM (fun c => parse_weibo now c.mblog)

instance [DecidableEq ε] [DecidableEq α] : DecidableEq (Except ε α) := fun x y =>
  match x, y with
  | .error a, .error b =>
    if h : a = b then isTrue (congrArg Except.error h)
    else isFalse (fun hh => h (Except.error.inj hh))
  | .ok a, .ok b =>
    if h : a = b then isTrue (congrArg Except.ok h)
    else isFalse (fun hh => h (Except.ok.inj hh))
  | .error _, .ok _ => isFalse (fun hh => Except.noConfusion hh)
  | .ok _, .error _ => isFalse (fun hh => Except.noConfusion hh)

/-- Outcome of one `__next__` call: `StopIteration`, or a yielded value.
A yielded `Except.ok none` is Python's `None` (the bare `return` on a
non-ok response); `Except.ok (some page)` is a parsed page; an
`Except.error` is an exception escaping the step. -/
inductive NextOut where
  | stop
  | yielded (v : Except PyErr (Option (List WeiboRecord)))
deriving DecidableEq, Repr

/-- Embedding of `UserWeibo.__next__` with the page response passed in: if
iterating and `page >= len(self)`, raise `StopIteration` (no request is
issued); otherwise issue the page request, increment `page`
unconditionally, and yield `None` on a non-ok response or the parsed,
filtered card list on an ok one. -/
def nextStep (now : PyDateTime) (resp : PageResponse) (f : UserWeibo) : UserWeibo × NextOut :=
  if f._iter = true ∧ feedLen f.statuses_count ≤ f.page then (f, .stop)
  else
    let f' := { f with page := f.page + 1 }
    if resp.ok = true then (f', .yielded ((parsePage now resp).map some))
    else (f', .yielded (.ok none))

/-- Drive a feed against a script of page responses, one response per
issued request, collecting the yielded values in order.  The stream ends
at `StopIteration`, when the script is exhausted, or — with the erroring
step still recorded, since its request was issued — when a step raises. -/
def driveFeed (now : PyDateTime) : UserWeibo → List PageResponse → List (Except PyErr (Option (List WeiboRecord)))
  | _, [] => []
  | f, r :: rs =>
    match nextStep now r f with
    | (_, .stop) => []
    | (f', .yielded (.ok v)) => .ok v :: driveFeed now f' rs
    | (_, .yielded (.error e)) => [.error e]

/-- Number of page requests a driven feed issues: every list entry of
`driveFeed` corresponds to exactly one `_get_page` call (a `StopIteration`
issues none). -/
def requestsIssued (now : PyDateTime) (f : UserWeibo) (script : List PageResponse) : Nat :=
  (driveFeed now f script).length

/-- A step that cannot raise: non-ok responses yield `None` without
parsing, and ok responses whose cards parse cleanly yield a page. -/
def stepNoRaise (now : PyDateTime) (r : PageResponse) : Bool :=
  !r.ok || (parsePage now r).toBool

/-! ## `save_user_weibos` round structure (`itertools.zip_longest`) -/

/-- Length of the longest stream. -/
def maxLen (xss : List (List α)) : Nat := xss.foldr (fun xs m => max xs.length m) 0

/-- Model of `zip_longest(*streams, fillvalue=fill)`: one round per index
up to the longest stream, exhausted streams contributing `fill`. -/
def zipLongestFill (fill : α) (xss : List (List α)) : List (List α) :=
  (List.range (maxLen xss)).map (fun k => xss.map (fun xs => xs.getD k fill))

/-- The rounds `save_user_weibos` drives: `zip_longest` over the iterators
`iter(user)` (each a fresh `_iter=True` copy), with fill value `[]` — an
empty page. -/
def mergeRounds (now : PyDateTime) (feedsScripts : List (UserWeibo × List PageResponse)) :
    List (List (Except PyErr (Option (List WeiboRecord)))) :=
  zipLongestFill (Except.ok (some []))
    (feedsScripts.map (fun fs => driveFeed now (iterCopy fs.1) fs.2))

/-! ## `UserWeibo.from_id` (profile lookup) -/

/-- `response['data']['userInfo']` — the fields `from_id` reads (plus the
`toolbar_menus` key test). -/
structure UserInfo where
  screen_name : List Char
  id : Int
  followers_count : Int
  statuses_count : Int
  description : List Char
  avatar_hd : List Char
  has_toolbar_menus : Bool
deriving DecidableEq, Repr

/-- A profile-lookup response: the `ok` flag and the user-info object. -/
structure ProfileResponse where
  ok : Bool
  userInfo : UserInfo
deriving DecidableEq, Repr

/-- Exceptions `from_id` can produce.  `valueErrorResp` is a `ValueError`
with the raw response attached as its `.response` attribute. -/
inductive FromIdErr where
  | valueErrorResp (msg : List Char) (response : ProfileResponse)
  | attributeError (attr : List Char)
deriving DecidableEq, Repr

def sUid : List Char := "uid".data

def sCannotFind : List Char := "Cannot find user info for id ".data

/-- The attribute names present on the `UserWeibo` class object (its
methods, the dataclass fields that have defaults, and `API_URL`).  `uid`
is not among them. -/
def classAttrNames : List (List Char) :=
  ["API_URL".data, "page".data, "_iter".data, "from_id".data, "_get_json".data,
   "_get_page".data, "_is_weibo".data, "_get_pics".data, "_get_topics".data,
   "_get_at_users".data, "_string_to_int".data, "_standardize_date".data,
   "_standardize_info".data, "get_long_weibo".data, "_parse_weibo".data]

/-- Model of `getattr(UserWeibo, name)` succeeding: whether the class has
the attribute. -/
def classHasAttr (a : List Char) : Bool := classAttrNames.contains a

/-- Apply `_standardize_info` to the user-info object: its `str`-valued
fields are sanitized. -/
def standardize_userinfo (u : UserInfo) : UserInfo :=
  { u with screen_name := standardize_str u.screen_name,
           description := standardize_str u.description,
           avatar_hd := standardize_str u.avatar_hd }

/-- Embedding of `UserWeibo.from_id` with the profile-lookup response
passed in.  On `ok`, the `toolbar_menus` sub-object is discarded, the info
is sanitized and the dataclass is constructed.  On a non-ok response the
source formats `f'Cannot find user info for id {cls.uid}'`: evaluating
`cls.uid` is a class-attribute lookup, which raises `AttributeError`
when the attribute does not exist — before any `ValueError` is built. -/
def from_id (resp : ProfileResponse) : Except FromIdErr UserWeibo :=
  if resp.ok then
    let info := standardize_userinfo { resp.userInfo with has_toolbar_menus := false }
    .ok { name := info.screen_name, id := info.id,
          followers_count := info.followers_count,
          statuses_count := info.statuses_count,
          description := info.description, avatar := info.avatar_hd }
  else if classHasAttr sUid then .error (.valueErrorResp sCannotFind resp)
  else .error (.attributeError sUid)

/-! ## `UserWeibo.get_long_weibo`: embedded-JSON extraction

`json.loads(html, strict=False)` is modelled by an executable JSON parser
over the grammar the detail pages use (objects, arrays, strings with
simple escapes, integer numbers, literals); `strict=False` only relaxes
the control-character check inside strings, which the model already
allows.  Floats and `\u` escapes, which the extraction claims never need,
parse to `none` (a decode failure). -/

/-- A parsed JSON value. -/
inductive PyJson where
  | null
  | bool (b : Bool)
  | num (n : Int)
  | str (s : List Char)
  | arr (xs : List PyJson)
  | obj (kvs : List ((List Char) × PyJson))
deriving Repr

/-- JSON whitespace skipping. -/
def skipWs (cs : List Char) : List Char :=
  cs.dropWhile (fun c => c = ' ' || c = '\t' || c = '\n' || c = '\r')

/-- Decode one string escape (the subset the detail pages use). -/
def escChar (c : Char) : Option Char :=
  if c = '"' then some '"'
  else if c = '\\' then some '\\'
  else if c = '/' then some '/'
  else if c = 'n' then some '\n'
  else if c = 't' then some '\t'
  else if c = 'r' then some '\r'
  else if c = 'b' then some '\x08'
  else if c = 'f' then some '\x0c'
  else none

/-- Parse the body of a JSON string after the opening quote. -/
def jsonStrBody : Nat → List Char → List Char → Option (List Char × List Char)
  | 0, _, _ => none
  | _ + 1, [], _ => none
  | fuel + 1, c :: r, acc =>
    if c = '"' then some (acc, r)
    else if c = '\\' then
      match r with
      | [] => none
      | e :: r2 =>
        match escChar e with
        | none => none
        | some ec => jsonStrBody fuel r2 (acc ++ [ec])
    else jsonStrBody fuel r (acc ++ [c])

/-- Parse an unsigned integer numeral; floats/exponents are unsupported
and fail. -/
def jsonNat (cs : List Char) : Option (Nat × List Char) :=
  let ds := cs.takeWhile Char.isDigit
  let r := cs.drop ds.length
  if ds = [] then none
  else match r.head? with
       | some c => if c = '.' || c = 'e' || c = 'E' then none else some (parseDigitChars ds, r)
       | none => some (parseDigitChars ds, r)

mutual

/-- Parse one JSON value. -/
def jsonVal : Nat → List Char → Option (PyJson × List Char)
  | 0, _ => none
  | fuel + 1, cs =>
    match skipWs cs with
    | '\x7b' :: rest =>
      (match skipWs rest with
       | '\x7d' :: r2 => some (.obj [], r2)
       | _ => jsonObjMembers fuel rest [])
    | '[' :: rest =>
      (match skipWs rest with
       | ']' :: r2 => some (.arr [], r2)
       | _ => jsonArrItems fuel rest [])
    | '"' :: rest => (jsonStrBody (rest.length + 1) rest []).map (fun p => (.str p.1, p.2))
    | 'n' :: 'u' :: 'l' :: 'l' :: r => some (.null, r)
    | 't' :: 'r' :: 'u' :: 'e' :: r => some (.bool true, r)
    | 'f' :: 'a' :: 'l' :: 's' :: 'e' :: r => some (.bool false, r)
    | '-' :: rest => (jsonNat rest).map (fun p => (.num (-(p.1 : Int)), p.2))
    | other => (jsonNat other).map (fun p => (.num (p.1 : Int), p.2))

/-- Parse `"key": value` pairs separated by commas, up to the closing
brace. -/
def jsonObjMembers : Nat → List Char → List ((List Char) × PyJson) → Option (PyJson × List Char)
  | 0, _, _ => none
  | fuel + 1, cs, acc =>
    match skipWs cs with
    | '"' :: rest =>
      match jsonStrBody (rest.length + 1) rest [] with
      | none => none
      | some (k, r2) =>
        match skipWs r2 with
        | ':' :: r3 =>
          match jsonVal fuel r3 with
          | none => none
          | some (v, r4) =>
            match skipWs r4 with
            | ',' :: r5 => jsonObjMembers fuel r5 (acc ++ [(k, v)])
            | '\x7d' :: r5 => some (.obj (acc ++ [(k, v)]), r5)
            | _ => none
        | _ => none
    | _ => none

/-- Parse array items separated by commas, up to the closing bracket. -/
def jsonArrItems : Nat → List Char → List PyJson → Option (PyJson × List Char)
  | 0, _, _ => none
  | fuel + 1, cs, acc =>
    match jsonVal fuel cs with
    | none => none
    | some (v, r) =>
      match skipWs r with
      | ',' :: r2 => jsonArrItems fuel r2 (acc ++ [v])
      | ']' :: r2 => some (.arr (acc ++ [v]), r2)
      | _ => none

end

/-- Model of `json.loads`: parse one value and require only whitespace to
remain. -/
def jsonLoads (cs : List Char) : Option PyJson :=
  match jsonVal (2 * cs.length + 8) cs with
  | none => none
  | some (v, r) => if skipWs r = [] then some v else none

/-- Model of `js[key]` on a parsed JSON value: `none` where Python raises
(`KeyError`, or `TypeError` on a non-dict).  With duplicate keys,
`json.loads` keeps the last occurrence. -/
def objGet (js : PyJson) (key : List Char) : Option PyJson :=
  match js with
  | .obj kvs => ((kvs.filter (fun kv => decide (kv.1 = key))).getLast?).map (fun kv => kv.2)
  | _ => none

/-- How a long-post fetch can fail.  `fmtError` is the distinct
extraction-format condition the specification posits; `jsonDecode` is the
generic `json.JSONDecodeError`; `keyMissing` models `js['status']`
failing. -/
inductive LongErr where
  | jsonDecode (text : List Char)
  | keyMissing (key : List Char)
  | fmtError (ctx : List Char)
deriving Repr

def sStatusMarker : List Char := "\"status\":".data

def sHotScheme : List Char := "\"hotScheme\"".data

def sStatusKey : List Char := "status".data

/-- Embedding of the extraction step of `UserWeibo.get_long_weibo` (lines
178–183): slice from the first `"status":` (`str.find`, `-1` if absent),
cut at the last `"hotScheme"` (`str.rfind`), trim back to the last comma,
wrap in braces, `json.loads`, and index `js['status']`. -/
def extractLongStatus (html : List Char) : Except LongErr PyJson :=
  let h1 := sliceFrom html (subFind html sStatusMarker)
  let h2 := sliceTo h1 (subRFind h1 sHotScheme)
  let h3 := sliceTo h2 (subRFind h2 [ ',' ])
  let braced := '\x7b' :: (h3 ++ ['\x7d'])
  match jsonLoads braced with
  | none => .error (.jsonDecode braced)
  | some js =>
    match objGet js sStatusKey with
    | none => .error (.keyMissing sStatusKey)
    | some v => .ok v

/-- Discriminator for the extraction-format condition. -/
def isFmtError : Except LongErr PyJson → Bool
  | .error (.fmtError _) => true
  | _ => false

/-! ## `random_sleep` and its class-level wiring

`random.randint` draws are passed in explicitly as `redraw` pairs.  The
decorator `@random_sleep(freq=(1, 5), time=(6, 10))` is evaluated once, at
class-creation time, so a single `random_sleep` instance wraps
`UserWeibo._get_page` for the whole class: `CrawlerWorld` therefore holds
exactly one `SleepState`, reached by every feed's page requests. -/

/-- The mutable `next_sleep` dict of a `random_sleep` instance. -/
structure SleepState where
  n_steps : Int
  time : Int
deriving DecidableEq, Repr

/-- One wrapped call: decrement `n_steps`; at zero, sleep for the stored
`time` (returned as `some duration`) and reset both fields from the fresh
random draws. -/
def sleepStep (redraw : Int × Int) (st : SleepState) : SleepState × Option Int :=
  let n := st.n_steps - 1
  if n = 0 then ({ n_steps := redraw.1, time := redraw.2 }, some st.time)
  else ({ st with n_steps := n }, none)

/-- The heap of one run: the single class-level rate-limiter state and the
allocated `UserWeibo` objects (object identity = list index). -/
structure CrawlerWorld where
  limiter : SleepState
  feeds : List UserWeibo
deriving DecidableEq, Repr

/-- The request parameters `_get_page` builds. -/
structure ReqParams where
  containerid : List Char
  page : Int
deriving DecidableEq, Repr

def sPagePrefixDigits : List Char := "107603".data

/-- Embedding of `UserWeibo._get_page` on feed object `i`: one pass
through the shared `random_sleep` wrapper (decrementing the one
class-level countdown), then the request parameters for that feed's id. -/
def getPageWorld (redraw : Int × Int) (w : CrawlerWorld) (i : Nat) (pageNum : Int) :
    CrawlerWorld × Option ReqParams :=
  match w.feeds[i]? with
  | none => (w, none)
  | some f =>
    ({ w with limiter := (sleepStep redraw w.limiter).1 },
     some { containerid := sPagePrefixDigits ++ intChars f.id, page := pageNum })

/-- Embedding of `UserWeibo.__next__` on feed object `i` of the heap:
`StopIteration` touches nothing; otherwise the request passes through the
shared rate limiter and the feed's own `page` field is updated in place. -/
def nextWorld (now : PyDateTime) (redraw : Int × Int) (resp : PageResponse)
    (w : CrawlerWorld) (i : Nat) : CrawlerWorld × Option NextOut :=
  match w.feeds[i]? with
  | none => (w, none)
  | some f =>
    match nextStep now resp f with
    | (_, .stop) => (w, some .stop)
    | (f', .yielded v) =>
      let w1 := (getPageWorld redraw w i f.page).1
      ({ w1 with feeds := w1.feeds.set i f' }, some (.yielded v))

/-- Embedding of `UserWeibo.__iter__` on feed object `i`:
`dataclasses.replace` allocates a fresh object (appended to the heap) with
`_iter=True`; the new object's index is returned. -/
def iterWorld (w : CrawlerWorld) (i : Nat) : CrawlerWorld × Nat :=
  match w.feeds[i]? with
  | none => (w, w.feeds.length)
  | some f => ({ w with feeds := w.feeds ++ [iterCopy f] }, w.feeds.length)

/-- Drive `__next__` on feed object `j` once per scripted (redraw,
response) pair. -/
def driveWorld (now : PyDateTime) (j : Nat) :
    CrawlerWorld → List ((Int × Int) × PageResponse) → CrawlerWorld
  | w, [] => w
  | w, s :: rest => driveWorld now j (nextWorld now s.1 s.2 w j).1 rest

/-! ## Concrete instances used by the claim theorems -/

/-- A fixed "now" instant. -/
def now0 : PyDateTime := ⟨2026, 10, 12, 14, 30, 0⟩

/-- A successful page response with no cards. -/
def okEmpty : PageResponse := ⟨true, []⟩

/-- A failed page response (`ok` false). -/
def badResp : PageResponse := ⟨false, []⟩

/-- A profile with `statuses_count = 25` — `ceil(25/10) = 3` total pages. -/
def feed25 : UserWeibo :=
  { name := "a".data, id := 1, followers_count := 0, statuses_count := 25,
    description := [], avatar := [] }

/-- A profile with `statuses_count = 5` — 1 total page. -/
def feed5 : UserWeibo :=
  { name := "b".data, id := 2, followers_count := 0, statuses_count := 5,
    description := [], avatar := [] }

/-- A script of three successful empty pages. -/
def script3 : List PageResponse := [okEmpty, okEmpty, okEmpty]

/-- A script of four successful empty pages. -/
def script4 : List PageResponse := [okEmpty, okEmpty, okEmpty, okEmpty]

def sOnePointTwoWanPlus : List Char := "1.2万+".data

def s38Wan : List Char := "38万".data

def sFiveMinAgo : List Char := "5分钟前".data

def sYesterdayLit : List Char := "昨天".data

def sMarchFifteen : List Char := "03-15".data

/-- A long-post detail document in which the `"hotScheme"` marker is
absent. -/
def htmlNoHotScheme : List Char := "\"status\": \x7b\"id\": 1\x7d, \"end\": 2".data

/-- A user-info object for profile-lookup responses. -/
def infoSample : UserInfo := ⟨"ann".data, 7, 10, 25, [], [], true⟩

/-- A failed profile-lookup response. -/
def profFail : ProfileResponse := ⟨false, infoSample⟩

/-- A two-feed heap whose shared limiter will next sleep after 5 more
requests. -/
def world0 : CrawlerWorld := ⟨⟨5, 7⟩, [feed25, feed5]⟩

/-- The digit string used to instantiate the count-normalization theorems. -/
def sThirtyEight : List Char := "38".data

/-! ## Helper lemmas: decimal digits and `pyInt` -/

theorem isDigit_digitChar {d : Nat} (h : d < 10) : (Nat.digitChar d).isDigit = true := by
  interval_cases d <;> decide

theorem digitVal_digitChar {d : Nat} (h : d < 10) : (Nat.digitChar d).toNat - 48 = d := by
  interval_cases d <;> decide

theorem foldlDigits_shift (b : List Char) (init : Nat) :
    b.foldl (fun a c => 10 * a + (c.toNat - 48)) init = init * 10 ^ b.length + parseDigitChars b := by
  induction b generalizing init with
  | nil => simp [parseDigitChars]
  | cons c t ih =>
    show (t.foldl _ (10 * init + (c.toNat - 48))) = _
    rw [ih]
    have h2 : parseDigitChars (c :: t) = (10 * 0 + (c.toNat - 48)) * 10 ^ t.length + parseDigitChars t := by
      show t.foldl _ (10 * 0 + (c.toNat - 48)) = _
      rw [ih]
    rw [h2]
    simp [List.length_cons, pow_succ]
    ring

theorem parseDigitChars_append (a b : List Char) :
    parseDigitChars (a ++ b) = parseDigitChars a * 10 ^ b.length + parseDigitChars b := by
  show (a ++ b).foldl _ 0 = _
  rw [List.foldl_append]
  exact foldlDigits_shift b (parseDigitChars a)

theorem parseDigitChars_revMap (L : List Nat) (h : ∀ d ∈ L, d < 10) :
    parseDigitChars (L.reverse.map Nat.digitChar) = Nat.ofDigits 10 L := by
  induction L with
  | nil => simp [parseDigitChars, Nat.ofDigits_nil]
  | cons d t ih =>
    have hd : d < 10 := h d (List.mem_cons_self d t)
    have ht : ∀ x ∈ t, x < 10 := fun x hx => h x (List.mem_cons_of_mem d hx)
    rw [List.reverse_cons, List.map_append, parseDigitChars_append, ih ht, Nat.ofDigits_cons]
    have h1 : parseDigitChars ([d].map Nat.digitChar) = d := by
      show List.foldl _ 0 [Nat.digitChar d] = d
      simp [List.foldl, digitVal_digitChar hd]
    simp only [List.map_cons, List.map_nil] at h1 ⊢
    rw [h1]
    simp
    ring

theorem parse_natChars (n : Nat) : parseDigitChars (natChars n) = n := by
  by_cases h0 : n = 0
  · subst h0; decide
  · rw [natChars, if_neg h0,
      parseDigitChars_revMap _ (fun d hd => Nat.digits_lt_base (by norm_num) hd),
      Nat.ofDigits_digits]

theorem all_isDigit_natChars (n : Nat) : (natChars n).all Char.isDigit = true := by
  by_cases h0 : n = 0
  · subst h0; decide
  · rw [natChars, if_neg h0, List.all_eq_true]
    intro c hc
    rw [List.mem_map] at hc
    obtain ⟨d, hd, rfl⟩ := hc
    exact isDigit_digitChar (Nat.digits_lt_base (by norm_num) (List.mem_reverse.mp hd))

theorem length_natChars {n : Nat} (h1 : 1000 ≤ n) (h2 : n < 10000) :
    (natChars n).length = 4 := by
  have h0 : n ≠ 0 := by omega
  have ha : 10 ^ 3 ≤ n := by norm_num; omega
  have hb : n < 10 ^ (3 + 1) := by norm_num; omega
  rw [natChars, if_neg h0, List.length_map, List.length_reverse,
    Nat.digits_len 10 n (by norm_num) h0,
    Nat.log_eq_of_pow_le_of_lt_pow ha hb]

theorem pySpace_of_isDigit {c : Char} (h : c.isDigit = true) : pySpace c = false := by
  rcases Bool.eq_false_or_eq_true (pySpace c) with ht | hf
  · exfalso
    unfold pySpace at ht
    simp only [Bool.or_eq_true, decide_eq_true_eq] at ht
    rcases ht with ((((h1 | h1) | h1) | h1) | h1) | h1 <;> (subst h1; exact absurd h (by decide))
  · exact hf

theorem dropWhile_eq_self_of {p : Char → Bool} {l : List Char}
    (h : ∀ c ∈ l, p c = false) : l.dropWhile p = l := by
  cases l with
  | nil => rfl
  | cons c t => simp [List.dropWhile_cons, h c (List.mem_cons_self c t)]

theorem pyTrim_eq_self {l : List Char} (h : ∀ c ∈ l, pySpace c = false) : pyTrim l = l := by
  unfold pyTrim
  rw [dropWhile_eq_self_of h,
    dropWhile_eq_self_of (fun c hc => h c (List.mem_reverse.mp hc)),
    List.reverse_reverse]

theorem pyInt_digits {ds : List Char} (h1 : ds ≠ []) (h2 : ds.all Char.isDigit = true) :
    pyInt ds = some ((parseDigitChars ds : Int)) := by
  have hall : ∀ c ∈ ds, c.isDigit = true := List.all_eq_true.mp h2
  have htrim : pyTrim ds = ds := pyTrim_eq_self (fun c hc => pySpace_of_isDigit (hall c hc))
  obtain ⟨d, tl, rfl⟩ : ∃ d tl, ds = d :: tl := by
    cases ds with
    | nil => exact absurd rfl h1
    | cons d tl => exact ⟨d, tl, rfl⟩
  have hd : d.isDigit = true := hall d (List.mem_cons_self d tl)
  have hp : ¬((d :: tl).head? = some '+') := by
    simp only [List.head?_cons, Option.some.injEq]
    intro hh; subst hh; exact absurd hd (by decide)
  have hm : ¬((d :: tl).head? = some '-') := by
    simp only [List.head?_cons, Option.some.injEq]
    intro hh; subst hh; exact absurd hd (by decide)
  unfold pyInt
  simp only [htrim, decide_eq_false hp, decide_eq_false hm, Bool.or_self, Bool.or_false,
    if_neg hm, Bool.false_or, if_false]
  rw [if_pos ⟨h1, h2⟩]
  simp

theorem all_isDigit_append {a b : List Char} (ha : a.all Char.isDigit = true)
    (hb : b.all Char.isDigit = true) : (a ++ b).all Char.isDigit = true := by
  rw [List.all_append, ha, hb]; rfl

theorem pyEndsWith_append (a b : List Char) : pyEndsWith (a ++ b) b = true := by
  unfold pyEndsWith
  rw [List.length_append, Nat.add_sub_cancel, List.drop_left]
  exact decide_eq_true rfl

theorem not_pyEndsWith_digits {ds sfx : List Char} (h2 : ds.all Char.isDigit = true)
    (c : Char) (hc : c ∈ sfx) (hcd : c.isDigit = false) : pyEndsWith ds sfx = false := by
  rcases Bool.eq_false_or_eq_true (pyEndsWith ds sfx) with ht | hf
  · exfalso
    unfold pyEndsWith at ht
    rw [decide_eq_true_eq] at ht
    have hmem : c ∈ ds := List.drop_subset _ ds (ht ▸ hc)
    have := List.all_eq_true.mp h2 c hmem
    rw [hcd] at this
    exact Bool.false_ne_true this
  · exact hf

theorem pyInt_digits_zeros {ds : List Char} (h1 : ds ≠ []) (h2 : ds.all Char.isDigit = true) :
    pyInt (ds ++ sZeros) = some ((parseDigitChars ds : Int) * 10000) := by
  have hz : sZeros.all Char.isDigit = true := by decide
  have hne : ds ++ sZeros ≠ [] := by
    intro hh
    exact h1 (List.append_eq_nil.mp hh).1
  rw [pyInt_digits hne (all_isDigit_append h2 hz), parseDigitChars_append]
  have : parseDigitChars sZeros = 0 := by decide
  rw [this, Nat.add_zero]
  have hlen : sZeros.length = 4 := by decide
  rw [hlen]
  push_cast
  ring_nf

theorem not_pyEndsWith_of_not_mem {s sfx : List Char} (c : Char) (hc : c ∈ sfx)
    (hns : c ∉ s) : pyEndsWith s sfx = false := by
  rcases Bool.eq_false_or_eq_true (pyEndsWith s sfx) with ht | hf
  · exfalso
    unfold pyEndsWith at ht
    rw [decide_eq_true_eq] at ht
    exact hns (List.drop_subset _ s (ht ▸ hc))
  · exact hf

theorem not_mem_of_all_digits {ds : List Char} {c : Char} (h2 : ds.all Char.isDigit = true)
    (hcd : c.isDigit = false) : c ∉ ds := by
  intro hmem
  have := List.all_eq_true.mp h2 c hmem
  rw [hcd] at this
  exact Bool.false_ne_true this

theorem stringToInt_wanPlus {ds : List Char} (h1 : ds ≠ []) (h2 : ds.all Char.isDigit = true) :
    string_to_int (.str (ds ++ sWanPlus)) = some ((parseDigitChars ds : Int) * 10000) := by
  have htake : (ds ++ sWanPlus).take ((ds ++ sWanPlus).length - 2) = ds := by
    have hl : (ds ++ sWanPlus).length - 2 = ds.length := by
      simp [sWanPlus]
    rw [hl, List.take_left]
  show (if pyEndsWith (ds ++ sWanPlus) sWanPlus = true then
          pyInt ((ds ++ sWanPlus).take ((ds ++ sWanPlus).length - 2) ++ sZeros)
        else if pyEndsWith (ds ++ sWanPlus) sWan = true then
          pyInt ((ds ++ sWanPlus).take ((ds ++ sWanPlus).length - 1) ++ sZeros)
        else pyInt (ds ++ sWanPlus)) = _
  rw [if_pos (pyEndsWith_append ds sWanPlus), htake, pyInt_digits_zeros h1 h2]

theorem stringToInt_wan {ds : List Char} (h1 : ds ≠ []) (h2 : ds.all Char.isDigit = true) :
    string_to_int (.str (ds ++ sWan)) = some ((parseDigitChars ds : Int) * 10000) := by
  have hnp : pyEndsWith (ds ++ sWan) sWanPlus = false := by
    refine not_pyEndsWith_of_not_mem '+' (by decide) ?_
    intro hmem
    rcases List.mem_append.mp hmem with hm | hm
    · exact not_mem_of_all_digits h2 (by decide) hm
    · simp [sWan] at hm
  have htake : (ds ++ sWan).take ((ds ++ sWan).length - 1) = ds := by
    have hl : (ds ++ sWan).length - 1 = ds.length := by
      simp [sWan]
    rw [hl, List.take_left]
  show (if pyEndsWith (ds ++ sWan) sWanPlus = true then
          pyInt ((ds ++ sWan).take ((ds ++ sWan).length - 2) ++ sZeros)
        else if pyEndsWith (ds ++ sWan) sWan = true then
          pyInt ((ds ++ sWan).take ((ds ++ sWan).length - 1) ++ sZeros)
        else pyInt (ds ++ sWan)) = _
  rw [hnp]
  simp only [Bool.false_eq_true, if_false]
  rw [if_pos (pyEndsWith_append ds sWan), htake, pyInt_digits_zeros h1 h2]

theorem stringToInt_plainDigits {ds : List Char} (h1 : ds ≠ [])
    (h2 : ds.all Char.isDigit = true) :
    string_to_int (.str ds) = some ((parseDigitChars ds : Int)) := by
  have hnp : pyEndsWith ds sWanPlus = false :=
    not_pyEndsWith_of_not_mem '万' (by decide) (not_mem_of_all_digits h2 (by decide))
  have hnw : pyEndsWith ds sWan = false :=
    not_pyEndsWith_of_not_mem '万' (by decide) (not_mem_of_all_digits h2 (by decide))
  show (if pyEndsWith ds sWanPlus = true then
          pyInt (ds.take (ds.length - 2) ++ sZeros)
        else if pyEndsWith ds sWan = true then
          pyInt (ds.take (ds.length - 1) ++ sZeros)
        else pyInt ds) = _
  rw [hnp, hnw]
  simp only [Bool.false_eq_true, if_false]
  exact pyInt_digits h1 h2

/-! ## Helper lemmas: `strptime` and the feed state machine -/

theorem strptime_year_march15 (ycs : List Char) (hlen : ycs.length = 4)
    (hdig : ycs.all Char.isDigit = true) :
    strptimeYMD (ycs ++ ('-' :: sMarchFifteen)) =
      mkValidDate (parseDigitChars ycs : Int) 3 15 := by
  have htake : (ycs ++ ('-' :: sMarchFifteen)).take 4 = ycs := by
    rw [← hlen, List.take_left]
  have hdrop : (ycs ++ ('-' :: sMarchFifteen)).drop 4 = '-' :: sMarchFifteen := by
    rw [← hlen, List.drop_left]
  unfold strptimeYMD
  simp only [htake, hdrop]
  rw [if_pos ⟨hlen, hdig⟩]
  show (if ([ '0', '3' ] : List Char).length = 0 then none else _) = _
  norm_num
  have h03 : ((parseDigitChars [ '0', '3' ] : Nat) : Int) = 3 := by decide
  have h15 : ((parseDigitChars [ '1', '5' ] : Nat) : Int) = 15 := by decide
  show mkValidDate _ ((parseDigitChars [ '0', '3' ] : Nat) : Int) ((parseDigitChars [ '1', '5' ] : Nat) : Int) = _
  rw [h03, h15]

theorem driveFeed_stop (now : PyDateTime) {f : UserWeibo}
    (hstop : f._iter = true ∧ feedLen f.statuses_count ≤ f.page) (rs : List PageResponse) :
    driveFeed now f rs = [] := by
  cases rs with
  | nil => rfl
  | cons r t => simp [driveFeed, nextStep, if_pos hstop]

theorem driveFeed_cons_yield (now : PyDateTime) {r : PageResponse} {f : UserWeibo}
    (hstop : ¬(f._iter = true ∧ feedLen f.statuses_count ≤ f.page))
    (hnr : stepNoRaise now r = true) (rs : List PageResponse) :
    ∃ v, driveFeed now f (r :: rs) = .ok v :: driveFeed now ({ f with page := f.page + 1 } : UserWeibo) rs := by
  cases hok : r.ok with
  | false =>
    refine ⟨none, ?_⟩
    simp [driveFeed, nextStep, if_neg hstop, hok]
  | true =>
    unfold stepNoRaise at hnr
    rw [hok] at hnr
    simp only [Bool.not_true, Bool.false_or] at hnr
    obtain ⟨l, hl⟩ : ∃ l, parsePage now r = .ok l := by
      cases hp : parsePage now r with
      | ok l => exact ⟨l, rfl⟩
      | error e => rw [hp] at hnr; exact absurd hnr (by simp [Except.toBool])
    refine ⟨some l, ?_⟩
    simp [driveFeed, nextStep, if_neg hstop, hok, hl, Except.map]

theorem driveFeed_cons_okEmpty (now : PyDateTime) {r : PageResponse} {f : UserWeibo}
    (hstop : ¬(f._iter = true ∧ feedLen f.statuses_count ≤ f.page))
    (hok : r.ok = true) (hcards : r.cards = []) (rs : List PageResponse) :
    driveFeed now f (r :: rs) = .ok (some []) :: driveFeed now ({ f with page := f.page + 1 } : UserWeibo) rs := by
  simp [driveFeed, nextStep, if_neg hstop, hok, parsePage, hcards, Except.map]
  rfl

theorem nextWorld_preserves (now : PyDateTime) (rd : Int × Int) (resp : PageResponse)
    (w : CrawlerWorld) (j i : Nat) (hne : i ≠ j) :
    (nextWorld now rd resp w j).1.feeds[i]? = w.feeds[i]? := by
  unfold nextWorld
  cases hg : w.feeds[j]? with
  | none => rfl
  | some f =>
    dsimp only
    cases hs : nextStep now resp f with
    | mk f' o =>
      cases o with
      | stop => rfl
      | yielded v =>
        dsimp only
        unfold getPageWorld
        rw [hg]
        show (w.feeds.set j f')[i]? = _
        exact List.getElem?_set_ne (fun hh => hne hh.symm)

theorem driveWorld_preserves (now : PyDateTime) (j i : Nat) (hne : i ≠ j)
    (script : List ((Int × Int) × PageResponse)) :
    ∀ w : CrawlerWorld, (driveWorld now j w script).feeds[i]? = w.feeds[i]? := by
  induction script with
  | nil => intro w; rfl
  | cons s rest ih =>
    intro w
    show (driveWorld now j (nextWorld now s.1 s.2 w j).1 rest).feeds[i]? = _
    rw [ih, nextWorld_preserves now s.1 s.2 w j i hne]

/-! ## Claim theorems -/

/-- C1 (counterexample): for the profile with `statuses_count = 25`
(`ceil(25/10) = 3` total pages) in iterating mode, driving it against a
script of four available page responses issues exactly 2 page requests —
not the 3 the claim states.  The guard `self.page >= len(self)` fires
before the request for page 3 is issued, because `page` starts at 1 and
is incremented after each request. -/
theorem claim_C1_counterexample : requestsIssued now0 (iterCopy feed25) script4 = 2 := by
  decide

/-- C1 (amended): a feed constructed from a profile with
`statuses_count = 25` and iterated in iterating mode issues exactly 2 page
requests (for pages 1 and 2) and then terminates by ending iteration,
without issuing a 3rd — for every response script with at least two
non-raising responses available. -/
theorem claim_C1_amended (now : PyDateTime) (script : List PageResponse)
    (h2 : 2 ≤ script.length) (hnr : ∀ r ∈ script, stepNoRaise now r = true) :
    requestsIssued now (iterCopy feed25) script = 2 := by
  obtain ⟨r1, r2, rest, rfl⟩ : ∃ r1 r2 rest, script = r1 :: r2 :: rest := by
    cases script with
    | nil => simp at h2
    | cons a t =>
      cases t with
      | nil => simp at h2
      | cons b u => exact ⟨a, b, u, rfl⟩
  obtain ⟨v1, hv1⟩ := driveFeed_cons_yield now (f := iterCopy feed25) (by decide)
    (hnr r1 (by simp)) (r2 :: rest)
  obtain ⟨v2, hv2⟩ := driveFeed_cons_yield now
    (f := { iterCopy feed25 with page := (iterCopy feed25).page + 1 }) (by decide)
    (hnr r2 (by simp)) rest
  have h3 : driveFeed now ({ { iterCopy feed25 with page := (iterCopy feed25).page + 1 } with
      page := (iterCopy feed25).page + 1 + 1 } : UserWeibo) rest = [] :=
    driveFeed_stop now (by decide) rest
  unfold requestsIssued
  rw [hv1, hv2, h3]
  rfl

/-- C1 (witness): the amended theorem applied to a concrete three-response
script. -/
theorem claim_C1_witness : requestsIssued now0 (iterCopy feed25) script3 = 2 :=
  claim_C1_amended now0 script3 (by decide) (by decide)

/-- C2 (code evaluation at the failing input): a page step of an iterating
feed whose response has `ok` false does not terminate the feed and
increments `page` from 1 to 2, but yields Python `None` (`Except.ok none`,
from the bare `return`) — not an empty page `Except.ok (some [])` as the
claim states.  The merger's flattening cannot iterate `None`. -/
theorem claim_C2_evaluation :
    nextStep now0 badResp (iterCopy feed25) =
      (({ iterCopy feed25 with page := 2 } : UserWeibo), NextOut.yielded (Except.ok none)) := by
  decide

/-- C3 (counterexample): merging a 1-page feed (`statuses_count = 5`) and
a 3-page feed (`statuses_count = 25`), each with successful responses
available, produces exactly 2 rounds — not the 3 the claim states (the
3-page feed stops after 2 requests, and round count equals the longest
stream). -/
theorem claim_C3_counterexample :
    (mergeRounds now0 [(feed5, [okEmpty]), (feed25, script3)]).length = 2 := by
  decide

/-- C3 (amended): driven by the merger, the 1-page feed and the 3-page
feed produce exactly 2 rounds; the first feed is exhausted from the start
(its single page is never requested) and contributes an empty page in both
rounds 1 and 2, so the shorter feed does not truncate the longer one. -/
theorem claim_C3_amended (now : PyDateTime) (sA : List PageResponse) (r1 r2 : PageResponse)
    (rest : List PageResponse) (h1 : r1.ok = true) (h2 : r1.cards = [])
    (h3 : r2.ok = true) (h4 : r2.cards = []) :
    mergeRounds now [(feed5, sA), (feed25, r1 :: r2 :: rest)] =
      [[Except.ok (some []), Except.ok (some [])],
       [Except.ok (some []), Except.ok (some [])]] := by
  have hA : driveFeed now (iterCopy feed5) sA = [] := driveFeed_stop now (by decide) sA
  have hB1 := driveFeed_cons_okEmpty now (f := iterCopy feed25) (by decide) h1 h2 (r2 :: rest)
  have hB2 := driveFeed_cons_okEmpty now
    (f := { iterCopy feed25 with page := (iterCopy feed25).page + 1 }) (by decide) h3 h4 rest
  have hB3 : driveFeed now ({ { iterCopy feed25 with page := (iterCopy feed25).page + 1 } with
      page := (iterCopy feed25).page + 1 + 1 } : UserWeibo) rest = [] :=
    driveFeed_stop now (by decide) rest
  unfold mergeRounds
  simp only [List.map_cons, List.map_nil]
  rw [hA, hB1, hB2, hB3]
  rfl

/-- C3 (witness): the amended theorem applied to concrete scripts. -/
theorem claim_C3_witness :
    mergeRounds now0 [(feed5, [okEmpty]), (feed25, okEmpty :: okEmpty :: [okEmpty])] =
      [[Except.ok (some []), Except.ok (some [])],
       [Except.ok (some []), Except.ok (some [])]] :=
  claim_C3_amended now0 [okEmpty] okEmpty okEmpty [okEmpty] rfl rfl rfl rfl

/-- C4 (code evaluation at the failing input): on a profile-lookup
response with `ok` false, `from_id` raises `AttributeError` for `uid`
(the error-message f-string reads the nonexistent `cls.uid`), so no
"user not found" `ValueError` carrying the response is ever constructed,
and the failing user id is not reported. -/
theorem claim_C4_evaluation :
    profFail.ok = false ∧ from_id profFail = Except.error (FromIdErr.attributeError sUid) := by
  decide

/-- C5 (counterexample): the decimal-valued abbreviated count `"1.2万+"`
is not normalized to `12000`: the code builds `int("1.20000")`, which
raises `ValueError` (`none`), because the marker is replaced by literal
digit substitution. -/
theorem claim_C5_counterexample : string_to_int (.str sOnePointTwoWanPlus) = none := by
  decide

/-- C5 (amended): count normalization maps every abbreviated string whose
prefix is a plain (integral) numeral followed by the ten-thousand marker —
optionally with the plus marker — to the prefix value times 10000, and
returns plain numeric strings and integer inputs unchanged; decimal-valued
abbreviated strings such as `"1.2万+"` instead fail with a `ValueError`. -/
theorem claim_C5_amended (ds : List Char) (h1 : ds ≠ [])
    (h2 : ds.all Char.isDigit = true) :
    string_to_int (.str (ds ++ sWanPlus)) = some ((parseDigitChars ds : Int) * 10000)
    ∧ string_to_int (.str (ds ++ sWan)) = some ((parseDigitChars ds : Int) * 10000)
    ∧ string_to_int (.str ds) = some ((parseDigitChars ds : Int))
    ∧ ∀ n : Int, string_to_int (.int n) = some n :=
  ⟨stringToInt_wanPlus h1 h2, stringToInt_wan h1 h2, stringToInt_plainDigits h1 h2,
   fun _ => rfl⟩

/-- C5 (witness): the amended theorem applied to the digit string `"38"`:
`"38万+"` and `"38万"` normalize to `380000`, `"38"` to `38`, and integers
pass through. -/
theorem claim_C5_witness :
    string_to_int (.str (sThirtyEight ++ sWanPlus)) = some ((parseDigitChars sThirtyEight : Int) * 10000)
    ∧ string_to_int (.str (sThirtyEight ++ sWan)) = some ((parseDigitChars sThirtyEight : Int) * 10000)
    ∧ string_to_int (.str sThirtyEight) = some ((parseDigitChars sThirtyEight : Int))
    ∧ ∀ n : Int, string_to_int (.int n) = some n :=
  claim_C5_amended sThirtyEight (by decide) (by decide)

/-- C6 (counterexample): a long-post detail document from which the
`"hotScheme"` marker is absent does not fail with any extraction-format
condition — on this document the blind slicing accidentally produces
parseable JSON and the extraction succeeds outright. -/
theorem claim_C6_counterexample :
    listContainsSub htmlNoHotScheme sHotScheme = false
    ∧ extractLongStatus htmlNoHotScheme = .ok (PyJson.obj [("id".data, PyJson.num 1)]) :=
  ⟨by decide, by rfl⟩

/-- C6 (amended): the long-post extraction never surfaces a distinct
extraction-format condition, for any input document: absent markers are
silently handled as `-1` slice indices, and the only failures it can
produce are the generic JSON decode error or a missing-key error —
indistinguishable from any other malformed-JSON failure. -/
theorem claim_C6_amended (html : List Char) : isFmtError (extractLongStatus html) = false := by
  unfold extractLongStatus
  dsimp only
  split
  · rfl
  · split <;> rfl

/-- C7 (counterexample): the rate-limiter countdown is shared: in a
two-feed heap whose single class-level limiter reads 5 remaining steps, a
page request issued by feed 0 leaves the limiter — the same one that
governs feed 1's next forced delay — at 4 remaining steps. -/
theorem claim_C7_counterexample :
    world0.limiter.n_steps = 5
    ∧ (getPageWorld (4, 9) world0 0 1).1.limiter.n_steps = 4 := by
  decide

/-- C7 (amended): `random_sleep` decorates `_get_page` at class-creation
time, so one limiter instance is shared by every feed: a page request by
any feed advances the one shared countdown, and the resulting limiter
state is identical whichever feed issued the request. -/
theorem claim_C7_amended (rd : Int × Int) (w : CrawlerWorld) (i j : Nat) (p q : Int)
    (hi : i < w.feeds.length) (hj : j < w.feeds.length) :
    (getPageWorld rd w i p).1.limiter = (sleepStep rd w.limiter).1
    ∧ (getPageWorld rd w i p).1.limiter = (getPageWorld rd w j q).1.limiter := by
  have hgi : w.feeds[i]? = some w.feeds[i] := List.getElem?_eq_getElem hi
  have hgj : w.feeds[j]? = some w.feeds[j] := List.getElem?_eq_getElem hj
  unfold getPageWorld
  rw [hgi, hgj]
  exact ⟨rfl, rfl⟩

/-- C7 (witness): the amended theorem applied to the concrete two-feed
heap. -/
theorem claim_C7_witness :
    (getPageWorld (4, 9) world0 0 1).1.limiter = (sleepStep (4, 9) world0.limiter).1
    ∧ (getPageWorld (4, 9) world0 0 1).1.limiter = (getPageWorld (4, 9) world0 1 2).1.limiter :=
  claim_C7_amended (4, 9) world0 0 1 1 2 (by decide) (by decide)

/-- C8: date normalization with an injected fixed `now` maps `"5分钟前"`
to now minus 5 minutes (300 seconds), `"昨天"` to now minus 1 day (86400
seconds), and the bare month-day string `"03-15"` to March 15 of the
current year (for any `now` whose year prints as four digits, which
`strptime`'s `%Y` requires). -/
theorem claim_C8_theorem (now : PyDateTime) (h1 : 1000 ≤ now.year) (h2 : now.year < 10000) :
    standardize_date now sFiveMinAgo = .ok (pySubSecs now 300)
    ∧ standardize_date now sYesterdayLit = .ok (pySubSecs now 86400)
    ∧ standardize_date now sMarchFifteen = .ok ⟨now.year, 3, 15, 0, 0, 0⟩ := by
  refine ⟨rfl, rfl, ?_⟩
  have hyz : ¬(now.year < 0) := by omega
  have hx : strftimeY now = natChars now.year.toNat := by
    unfold strftimeY intChars
    rw [if_neg hyz]
  have hn1 : 1000 ≤ now.year.toNat := by omega
  have hn2 : now.year.toNat < 10000 := by omega
  have hcast : ((now.year.toNat : Nat) : Int) = now.year := Int.toNat_of_nonneg (by omega)
  unfold standardize_date
  rw [if_neg (by decide), if_neg (by decide), if_neg (by decide), if_neg (by decide)]
  simp only [hx]
  rw [if_pos (by decide)]
  have hassoc : natChars now.year.toNat ++ [ '-' ] ++ sMarchFifteen =
      natChars now.year.toNat ++ ('-' :: sMarchFifteen) := by
    rw [List.append_assoc]; rfl
  rw [hassoc, strptime_year_march15 _ (length_natChars hn1 hn2) (all_isDigit_natChars _),
    parse_natChars]
  unfold mkValidDate
  rw [if_pos]
  · rw [hcast]
  · refine ⟨by omega, by omega, by norm_num, by norm_num, by norm_num, ?_⟩
    norm_num [daysInMonth]

/-- C8 (witness): the theorem applied to the fixed instant
2026-10-12 14:30:00. -/
theorem claim_C8_witness :
    standardize_date now0 sFiveMinAgo = .ok (pySubSecs now0 300)
    ∧ standardize_date now0 sYesterdayLit = .ok (pySubSecs now0 86400)
    ∧ standardize_date now0 sMarchFifteen = .ok ⟨now0.year, 3, 15, 0, 0, 0⟩ :=
  claim_C8_theorem now0 (by decide) (by decide)

/-- C9: count normalization is idempotent on its own output: whenever it
succeeds with integer `r`, applying it again to `r` returns `r` unchanged
(the integer branch is the identity). -/
theorem claim_C9_theorem (x : PyVal) (r : Int) (h : string_to_int x = some r) :
    string_to_int (.int r) = some r := rfl

/-- C9 (witness): the theorem applied to the successful normalization of
`"38万"`. -/
theorem claim_C9_witness : string_to_int (.int 380000) = some 380000 :=
  claim_C9_theorem (.str s38Wan) 380000 (by decide)

/-- C10: `__iter__` on feed object `i` returns a fresh copy (a new heap
object) with the iterating flag set and the same page counter, and
driving that copy any number of steps leaves every field of the original
feed object unchanged. -/
theorem claim_C10_theorem (w : CrawlerWorld) (i : Nat) (now : PyDateTime)
    (script : List ((Int × Int) × PageResponse)) (h : i < w.feeds.length) :
    (iterWorld w i).1.feeds[(iterWorld w i).2]? = (w.feeds[i]?).map iterCopy
    ∧ (driveWorld now ((iterWorld w i).2) ((iterWorld w i).1) script).feeds[i]?
        = w.feeds[i]? := by
  have hg : w.feeds[i]? = some w.feeds[i] := List.getElem?_eq_getElem h
  have hiter : iterWorld w i =
      ({ w with feeds := w.feeds ++ [iterCopy w.feeds[i]] }, w.feeds.length) := by
    unfold iterWorld
    rw [hg]
  constructor
  · rw [hiter, hg]
    show (w.feeds ++ [iterCopy w.feeds[i]])[w.feeds.length]? = _
    rw [List.getElem?_concat_length]
    rfl
  · have hne : i ≠ (iterWorld w i).2 := by
      rw [hiter]
      omega
    rw [driveWorld_preserves now ((iterWorld w i).2) i hne script, hiter]
    show (w.feeds ++ [iterCopy w.feeds[i]])[i]? = _
    rw [List.getElem?_append_left h, hg]

/-- C10 (witness): the theorem applied to the concrete two-feed heap,
iterating feed 0 and driving the fresh iterator one step. -/
theorem claim_C10_witness :
    (iterWorld world0 0).1.feeds[(iterWorld world0 0).2]? = (world0.feeds[0]?).map iterCopy
    ∧ (driveWorld now0 ((iterWorld world0 0).2) ((iterWorld world0 0).1)
        [((4, 9), okEmpty)]).feeds[0]? = world0.feeds[0]? :=
  claim_C10_theorem world0 0 now0 [((4, 9), okEmpty)] (by decide)
